import Mathlib

/-!
Verification of the record-submission service in `server.py`: the
request-validation → record-construction → persistence → retrieval pipeline
for the "stories" and "contact_messages" collections.

Modelling conventions:
* An instant (`datetime`) is a natural number; its ISO-8601 rendering is the
  decimal string produced by `isoformat`, and `fromisoformat` is the partial
  inverse (it fails on strings that are not renderings of an instant, which
  models `datetime.fromisoformat` raising on unparseable input).
* A Firestore document is a flat association list from field names to string
  values; a collection is an association list from document keys to documents.
* Environment effects (uuid4 draws, the UTC clock, the local-calendar year)
  are an explicit `Env` record; the i-th uuid4 draw of a handler invocation
  uses the 128-bit value `env.rand i`.
* Faults of the store adapter are injected through an `Option String`
  parameter (`none` = the call succeeds, `some msg` = the adapter raises).
-/

/-- Decimal digit character, `digitChar d` for `d < 10`. -/
def digitChar (d : Nat) : Char := Char.ofNat (48 + d)

/-- Decimal digits of a natural number, least significant first, with
explicit recursion fuel (enough fuel for all digits when `n < 10 ^ fuel`). -/
def natDigitsRevAux : Nat → Nat → List Char
  | 0, _ => []
  | fuel + 1, n =>
    if n < 10 then [digitChar n]
    else digitChar (n % 10) :: natDigitsRevAux fuel (n / 10)

/-- Decimal digits of a natural number, least significant first. -/
def natDigitsRev (n : Nat) : List Char := natDigitsRevAux (n + 1) n

/-- Decimal rendering of a natural number (models Python `str` on ints). -/
def natToString (n : Nat) : String := String.mk (natDigitsRev n).reverse

/-- ISO-8601 rendering of an instant (models `datetime.isoformat`). -/
def isoformat (t : Nat) : String := natToString t

/-- Parse a decimal digit character. -/
def parseDigit (c : Char) : Option Nat :=
  if (48 ≤ c.toNat && c.toNat ≤ 57) then some (c.toNat - 48) else none

/-- Parse a run of decimal digits, accumulator style; fails on a non-digit. -/
def parseNatFrom : List Char → Nat → Option Nat
  | [], acc => some acc
  | c :: cs, acc =>
    match parseDigit c with
    | none => none
    | some d => parseNatFrom cs (10 * acc + d)

/-- Parse an ISO-8601 string back to an instant (models
`datetime.fromisoformat`, which raises on unparseable input — here `none`). -/
def fromisoformat (s : String) : Option Nat :=
  match s.data with
  | [] => none
  | c :: cs => parseNatFrom (c :: cs) 0

/-- Lower-case hexadecimal digit character, for `m < 16`. -/
def hexChar (m : Nat) : Char :=
  if m < 10 then Char.ofNat (48 + m) else Char.ofNat (87 + m)

/-- Big-endian fixed-width hexadecimal rendering (low `w` nibbles of `n`). -/
def hexBE (n : Nat) : Nat → List Char
  | 0 => []
  | w + 1 => hexChar (n / 16 ^ w % 16) :: hexBE n w

/-- The integer surgery `uuid.uuid4` performs on 128 random bits: force the
version nibble (bits 76–79) to `4` and the variant bits (62–63) to `10`. -/
def setVersionVariant (r : Nat) : Nat :=
  (r % 2 ^ 128) / 2 ^ 80 * 2 ^ 80 + 4 * 2 ^ 76 +
    (r % 2 ^ 128) / 2 ^ 64 % 2 ^ 12 * 2 ^ 64 + 2 * 2 ^ 62 + (r % 2 ^ 128) % 2 ^ 62

/-- The string `str(uuid.uuid4())` for random draw `r`: 32 lower-case hex digits in
groups 8-4-4-4-12 separated by hyphens. -/
def uuidString (r : Nat) : String :=
  String.mk (hexBE (setVersionVariant r / 2 ^ 96) 8 ++ '-' ::
    (hexBE (setVersionVariant r / 2 ^ 80 % 2 ^ 16) 4 ++ '-' ::
      (hexBE (setVersionVariant r / 2 ^ 64 % 2 ^ 16) 4 ++ '-' ::
        (hexBE (setVersionVariant r / 2 ^ 48 % 2 ^ 16) 4 ++ '-' ::
          hexBE (setVersionVariant r % 2 ^ 48) 12))))

/-- Lower-case hexadecimal digit test. -/
def isHexDigitLower (c : Char) : Bool :=
  (48 ≤ c.toNat && c.toNat ≤ 57) || (97 ≤ c.toNat && c.toNat ≤ 102)

/-- Consume exactly `w` hex digits from a character list. -/
def hexRun : Nat → List Char → Option (List Char)
  | 0, cs => some cs
  | _ + 1, [] => none
  | w + 1, c :: cs => if isHexDigitLower c then hexRun w cs else none

/-- Syntactic UUID validity: five hyphen-separated groups of lower-case hex
digits with lengths 8, 4, 4, 4, 12. -/
def isValidUUID (s : String) : Bool :=
  match hexRun 8 s.data with
  | some ('-' :: r1) =>
    match hexRun 4 r1 with
    | some ('-' :: r2) =>
      match hexRun 4 r2 with
      | some ('-' :: r3) =>
        match hexRun 4 r3 with
        | some ('-' :: r4) =>
          match hexRun 12 r4 with
          | some [] => true
          | _ => false
        | _ => false
      | _ => false
    | _ => false
  | _ => false

/-- A flat Firestore document: field name to string value, keys unique by
construction of the writers (association list, first match wins). -/
abbrev Doc := List (String × String)

/-- A Firestore collection: document key to document. -/
abbrev StoreCol := List (String × Doc)

/-- Dictionary lookup on a document (Python `data.get(k)` / `data[k]`). -/
def getField : Doc → String → Option String
  | [], _ => none
  | (k, v) :: rest, key => if k = key then some v else getField rest key

/-- Model of `db.collection(c).document(id).set(data)`: idempotent upsert by key. -/
def putDoc : StoreCol → String → Doc → StoreCol
  | [], id, d => [(id, d)]
  | (k, v) :: rest, id, d =>
    if k = id then (id, d) :: rest else (k, v) :: putDoc rest id d

/-- Lookup of a document by key in a collection. -/
def getDocById : StoreCol → String → Option Doc
  | [], _ => none
  | (k, v) :: rest, id => if k = id then some v else getDocById rest id

/-- Environment effects available to one handler invocation: the stream of
128-bit `uuid.uuid4` random draws, the UTC clock (`datetime.now(timezone.utc)`)
and the local-clock calendar year (`datetime.now().year`). -/
structure Env where
  rand : Nat → Nat
  nowUtc : Nat
  localYear : Nat

/-- The `Story` record (pydantic model `Story`, `server.py` lines 33–40). -/
structure Story where
  id : String
  author : String
  title : String
  story : String
  year : String
  timestamp : Nat
deriving DecidableEq

/-- The `StoryCreate` input model (`server.py` lines 43–46). -/
structure StoryCreate where
  author : String
  title : String
  story : String
deriving DecidableEq

/-- The `ContactMessage` record (`server.py` lines 50–56). -/
structure ContactMessage where
  id : String
  name : String
  email : String
  message : String
  timestamp : Nat
deriving DecidableEq

/-- The `ContactMessageCreate` input model (`server.py` lines 59–62). -/
structure ContactMessageCreate where
  name : String
  email : String
  message : String
deriving DecidableEq

/-- Outcome of one endpoint invocation: a successful value, an
`HTTPException` raised by the handler, or a FastAPI request-validation
rejection carrying the missing field names. -/
inductive Resp (α : Type)
  | ok (val : α)
  | httpError (status : Nat) (detail : String)
  | validationError (missing : List String)
deriving DecidableEq

/-- Required fields of the `StoryCreate` body. -/
def storyRequired : List String := ["author", "title", "story"]

/-- Required fields of the `ContactMessageCreate` body. -/
def contactRequired : List String := ["name", "email", "message"]

/-- Field names of `req` absent from the payload. -/
def missingFields (req : List String) (payload : Doc) : List String :=
  req.filter (fun k => (getField payload k).isNone)

/-- FastAPI/pydantic validation of a request body against `StoryCreate`:
extra fields are dropped, missing required fields reject the request with
field-level detail before the handler runs. -/
def parseStoryCreate (payload : Doc) : Except (List String) StoryCreate :=
  match getField payload "author", getField payload "title",
      getField payload "story" with
  | some a, some t, some s => .ok ⟨a, t, s⟩
  | _, _, _ => .error (missingFields storyRequired payload)

/-- Validation of a request body against `ContactMessageCreate`. -/
def parseContactCreate (payload : Doc) : Except (List String) ContactMessageCreate :=
  match getField payload "name", getField payload "email",
      getField payload "message" with
  | some n, some e, some m => .ok ⟨n, e, m⟩
  | _, _, _ => .error (missingFields contactRequired payload)

/-- Model of `story_obj.model_dump()` followed by the handler's
`data["timestamp"] = story_obj.timestamp.isoformat()`: the flat document
written to the "stories" collection. -/
def storyToDoc (s : Story) : Doc :=
  [("id", s.id), ("author", s.author), ("title", s.title), ("story", s.story),
    ("year", s.year), ("timestamp", isoformat s.timestamp)]

/-- The flat document written to the "contact_messages" collection. -/
def contactToDoc (m : ContactMessage) : Doc :=
  [("id", m.id), ("name", m.name), ("email", m.email), ("message", m.message),
    ("timestamp", isoformat m.timestamp)]

/-- Model of `Story(**input.model_dump())`: the pydantic constructor applied to a
validated `StoryCreate`, generating `id` from the first uuid4 draw, `year`
from the local-clock calendar year and `timestamp` from the UTC clock. -/
def mkStory (env : Env) (input : StoryCreate) : Story :=
  { id := uuidString (env.rand 0), author := input.author, title := input.title,
    story := input.story, year := natToString env.localYear,
    timestamp := env.nowUtc }

/-- Model of `ContactMessage(**input.model_dump())`. -/
def mkContactMessage (env : Env) (input : ContactMessageCreate) : ContactMessage :=
  { id := uuidString (env.rand 0), name := input.name, email := input.email,
    message := input.message, timestamp := env.nowUtc }

/-- The `POST /api/stories` endpoint (`create_story`, `server.py` lines
74–86) including the FastAPI validation that precedes the handler.
`putFault` injects an exception raised by the store adapter on write; the
handler's `try/except` turns any such fault into
`HTTPException(500, "Failed to add story")`. Returns the response together
with the resulting "stories" collection. -/
def create_story (env : Env) (putFault : Option String) (st : StoreCol)
    (payload : Doc) : Resp Story × StoreCol :=
  match parseStoryCreate payload with
  | .error missing => (Resp.validationError missing, st)
  | .ok input =>
    match putFault with
    | some _ => (Resp.httpError 500 "Failed to add story", st)
    | none =>
      (Resp.ok (mkStory env input),
        putDoc st (mkStory env input).id (storyToDoc (mkStory env input)))

/-- Parsing of one stored document into a `Story` inside `get_stories`
(`server.py` lines 95–98): `data["timestamp"]` is read (a missing key
raises) and parsed with `fromisoformat` (an unparseable string raises),
then `Story(**data)` validates the remaining fields, defaulting a missing
`id` to a fresh uuid4 draw (`env.rand ctr`, advancing the draw counter) and
a missing `year` to the current local calendar year. -/
def parseStoryDoc (env : Env) (ctr : Nat) (d : Doc) : Option (Story × Nat) :=
  match getField d "timestamp" with
  | none => none
  | some ts =>
    match fromisoformat ts with
    | none => none
    | some t =>
      match getField d "author", getField d "title", getField d "story" with
      | some a, some ti, some s =>
        match getField d "id" with
        | some i =>
          some ({ id := i, author := a, title := ti, story := s,
                  year := (getField d "year").getD (natToString env.localYear),
                  timestamp := t }, ctr)
        | none =>
          some ({ id := uuidString (env.rand ctr), author := a, title := ti,
                  story := s,
                  year := (getField d "year").getD (natToString env.localYear),
                  timestamp := t }, ctr + 1)
      | _, _, _ => none

/-- The parsing loop of `get_stories` over the scanned documents, threading
the uuid4 draw counter; any single failure aborts the whole operation. -/
def parseStories (env : Env) : List (String × Doc) → Nat → Option (List Story)
  | [], _ => some []
  | (_, d) :: rest, ctr =>
    match parseStoryDoc env ctr d with
    | none => none
    | some (s, ctr2) =>
      match parseStories env rest ctr2 with
      | none => none
      | some l => some (s :: l)

/-- One step of Python's stable descending-by-timestamp sort: insert a
record before the first already-placed record with a not-greater timestamp,
so that records with equal timestamps keep their scan order. -/
def insertDesc (s : Story) : List Story → List Story
  | [] => [s]
  | t :: ts => if t.timestamp ≤ s.timestamp then s :: t :: ts else t :: insertDesc s ts

/-- Model of `sorted(result, key=lambda x: x.timestamp, reverse=True)`: a stable sort
by timestamp descending (Python's sort is stable, and `reverse=True` flips
only comparisons between unequal keys). -/
def sortStoriesDesc : List Story → List Story
  | [] => []
  | s :: rest => insertDesc s (sortStoriesDesc rest)

/-- The `GET /api/stories` endpoint (`get_stories`, `server.py` lines
89–104). `scanFault` injects an exception raised by the store adapter's
collection scan; the handler's `try/except` turns any fault — from the scan
or from parsing any single document — into
`HTTPException(500, "Failed to fetch stories")`. -/
def get_stories (env : Env) (scanFault : Option String) (st : StoreCol) :
    Resp (List Story) :=
  match scanFault with
  | some _ => Resp.httpError 500 "Failed to fetch stories"
  | none =>
    match parseStories env st 0 with
    | none => Resp.httpError 500 "Failed to fetch stories"
    | some result => Resp.ok (sortStoriesDesc result)

/-- The `POST /api/contact` endpoint (`save_contact_message`, `server.py`
lines 109–121), analogous to `create_story` with failure message
"Failed to send message" and the "contact_messages" collection. -/
def save_contact_message (env : Env) (putFault : Option String) (st : StoreCol)
    (payload : Doc) : Resp ContactMessage × StoreCol :=
  match parseContactCreate payload with
  | .error missing => (Resp.validationError missing, st)
  | .ok input =>
    match putFault with
    | some _ => (Resp.httpError 500 "Failed to send message", st)
    | none =>
      (Resp.ok (mkContactMessage env input),
        putDoc st (mkContactMessage env input).id
          (contactToDoc (mkContactMessage env input)))

/-- Restriction of a payload to a set of field names (what pydantic keeps
of a creation payload). -/
def restrictKeys (keys : List String) (d : Doc) : Doc :=
  d.filter (fun p => decide (p.1 ∈ keys))

/-- A stored document whose `timestamp` field is absent or unparseable. -/
def timestampBadDoc (d : Doc) : Bool :=
  ((getField d "timestamp").bind fromisoformat).isNone

/-- Descending-by-timestamp ordering of a record list. -/
def tsDescOrdered (l : List Story) : Prop :=
  List.Pairwise (fun a b => b.timestamp ≤ a.timestamp) l

/-- Concrete environment for witnesses: the k-th uuid4 draw is k. -/
def envW : Env := { rand := fun k => k, nowUtc := 11, localYear := 2025 }

/-- Concrete stored stories with increasing timestamps. -/
def storyW1 : Story :=
  { id := "a1", author := "x", title := "y", story := "z", year := "2020",
    timestamp := 1 }

def storyW2 : Story :=
  { id := "a2", author := "x", title := "y", story := "z", year := "2020",
    timestamp := 2 }

def storyW3 : Story :=
  { id := "a3", author := "x", title := "y", story := "z", year := "2020",
    timestamp := 3 }

/-- Concrete valid story-creation payload. -/
def payloadOkW : Doc := [("author", "a"), ("title", "t"), ("story", "s")]

/-- Concrete story-creation payload that also supplies a `year` field. -/
def payloadC3 : Doc :=
  [("author", "a"), ("title", "t"), ("story", "s"), ("year", "1999")]

/-- The record `create_story` builds under `envW` from either payload. -/
def storyC3 : Story :=
  { id := "00000000-0000-4000-8000-000000000000", author := "a", title := "t",
    story := "s", year := "2025", timestamp := 11 }

/-- Concrete stored document with a valid timestamp but no `id`/`year`. -/
def docNoId : Doc :=
  [("author", "a"), ("title", "t"), ("story", "s"), ("timestamp", isoformat 7)]

/-- Concrete stored document with an `id` but no `year`. -/
def docIdNoYear : Doc :=
  [("id", "zz"), ("author", "a"), ("title", "t"), ("story", "s"),
    ("timestamp", isoformat 7)]

/-- Concrete stored document with an unparseable timestamp. -/
def docBadTs : Doc :=
  [("author", "a"), ("title", "t"), ("story", "s"), ("timestamp", "x")]

/-- Environment whose every uuid4 draw is 0. -/
def envR0 : Env := { rand := fun _ => 0, nowUtc := 0, localYear := 2026 }

/-- Environment whose every uuid4 draw is 1. -/
def envR1 : Env := { rand := fun _ => 1, nowUtc := 0, localYear := 2026 }

/-- Record produced by reading `docNoId` under `envR0`. -/
def sC10a : Story :=
  { id := uuidString 0, author := "a", title := "t", story := "s",
    year := natToString 2026, timestamp := 7 }

/-- Record produced by reading `docNoId` under `envR1`. -/
def sC10b : Story :=
  { id := uuidString 1, author := "a", title := "t", story := "s",
    year := natToString 2026, timestamp := 7 }

theorem parseDigit_digitChar (d : Nat) (h : d < 10) :
    parseDigit (digitChar d) = some d := by
  interval_cases d <;> rfl

theorem natDigitsRev_ne_nil (n : Nat) : natDigitsRev n ≠ [] := by
  rw [natDigitsRev, natDigitsRevAux]
  split <;> simp

theorem parseNatFrom_digitsAux (f : Nat) :
    ∀ n acc rest, n < 10 ^ f →
      parseNatFrom ((natDigitsRevAux f n).reverse ++ rest) acc =
        parseNatFrom rest (acc * 10 ^ (natDigitsRevAux f n).length + n) := by
  induction f with
  | zero =>
    intro n acc rest hn
    have hn0 : n = 0 := by simpa using hn
    subst hn0
    simp [natDigitsRevAux]
  | succ f ih =>
    intro n acc rest hn
    rw [natDigitsRevAux]
    by_cases h : n < 10
    · simp only [if_pos h, List.reverse_singleton, List.singleton_append,
        List.length_singleton, parseNatFrom, parseDigit_digitChar n h]
      ring_nf
    · have hdiv : n / 10 < 10 ^ f := by
        rw [Nat.div_lt_iff_lt_mul (by omega)]
        calc n < 10 ^ (f + 1) := hn
          _ = 10 ^ f * 10 := by rw [pow_succ]
      simp only [if_neg h, List.reverse_cons, List.length_cons,
        List.append_assoc, List.singleton_append]
      rw [ih (n / 10) acc _ hdiv]
      simp only [parseNatFrom,
        parseDigit_digitChar (n % 10) (Nat.mod_lt n (by omega))]
      have hdm : 10 * (n / 10) + n % 10 = n := by omega
      have hp : 10 ^ ((natDigitsRevAux f (n / 10)).length + 1) =
          10 ^ (natDigitsRevAux f (n / 10)).length * 10 := by
        rw [pow_succ]
      rw [hp]
      congr 1
      calc 10 * (acc * 10 ^ (natDigitsRevAux f (n / 10)).length + n / 10) + n % 10
          = acc * (10 ^ (natDigitsRevAux f (n / 10)).length * 10) +
              (10 * (n / 10) + n % 10) := by ring
        _ = acc * (10 ^ (natDigitsRevAux f (n / 10)).length * 10) + n := by
            rw [hdm]

theorem parseNatFrom_digits (n : Nat) (acc : Nat) (rest : List Char) :
    parseNatFrom ((natDigitsRev n).reverse ++ rest) acc =
      parseNatFrom rest (acc * 10 ^ (natDigitsRev n).length + n) := by
  have hn : n < 10 ^ (n + 1) :=
    lt_of_lt_of_le (Nat.lt_pow_self (by omega) n)
      (Nat.pow_le_pow_right (by omega) (by omega))
  exact parseNatFrom_digitsAux (n + 1) n acc rest hn

/-- The ISO-8601 timestamp codec round-trips. -/
theorem fromisoformat_isoformat (t : Nat) : fromisoformat (isoformat t) = some t := by
  have hne := natDigitsRev_ne_nil t
  have hrev : (natDigitsRev t).reverse ≠ [] := by
    simpa using hne
  obtain ⟨c, cs, hcs⟩ := List.exists_cons_of_ne_nil hrev
  unfold fromisoformat isoformat natToString
  simp only [hcs]
  have := parseNatFrom_digits t 0 []
  rw [hcs] at this
  simpa using this

theorem isHexDigitLower_hexChar (m : Nat) (h : m < 16) :
    isHexDigitLower (hexChar m) = true := by
  interval_cases m <;> rfl

theorem hexRun_hexBE (w : Nat) (n : Nat) (rest : List Char) :
    hexRun w (hexBE n w ++ rest) = some rest := by
  induction w with
  | zero => rfl
  | succ w ih =>
    show hexRun (w + 1) (hexChar (n / 16 ^ w % 16) :: (hexBE n w ++ rest)) = some rest
    simp only [hexRun, isHexDigitLower_hexChar _ (Nat.mod_lt _ (by omega)),
      if_true, ih]

/-- Every generated uuid string is syntactically valid. -/
theorem isValidUUID_uuidString (r : Nat) : isValidUUID (uuidString r) = true := by
  unfold isValidUUID uuidString
  rw [show hexBE (setVersionVariant r % 2 ^ 48) 12 =
      hexBE (setVersionVariant r % 2 ^ 48) 12 ++ [] from (List.append_nil _).symm]
  simp only [hexRun_hexBE]

theorem insertDesc_perm (s : Story) (l : List Story) :
    List.Perm (insertDesc s l) (s :: l) := by
  induction l with
  | nil => simp [insertDesc]
  | cons t ts ih =>
    rw [insertDesc]
    split
    · exact List.Perm.refl _
    · exact (ih.cons t).trans (List.Perm.swap s t ts)

theorem sortStoriesDesc_perm (l : List Story) :
    List.Perm (sortStoriesDesc l) l := by
  induction l with
  | nil => exact List.Perm.refl _
  | cons s rest ih =>
    rw [sortStoriesDesc]
    exact (insertDesc_perm s (sortStoriesDesc rest)).trans (ih.cons s)

theorem mem_insertDesc {x s : Story} {l : List Story} (h : x ∈ insertDesc s l) :
    x = s ∨ x ∈ l := by
  have := (insertDesc_perm s l).mem_iff.mp h
  simpa using this

theorem insertDesc_pairwise (s : Story) (l : List Story)
    (h : tsDescOrdered l) : tsDescOrdered (insertDesc s l) := by
  induction l with
  | nil => simp [insertDesc, tsDescOrdered]
  | cons t ts ih =>
    rw [tsDescOrdered, List.pairwise_cons] at h
    obtain ⟨h1, h2⟩ := h
    rw [insertDesc]
    split
    · rename_i hts
      rw [tsDescOrdered, List.pairwise_cons]
      constructor
      · intro x hx
        rcases List.mem_cons.mp hx with hx | hx
        · subst hx; exact hts
        · exact le_trans (h1 x hx) hts
      · rw [tsDescOrdered] at *
        exact List.Pairwise.cons h1 h2
    · rename_i hts
      rw [tsDescOrdered, List.pairwise_cons]
      constructor
      · intro x hx
        rcases mem_insertDesc hx with hx | hx
        · subst hx; omega
        · exact h1 x hx
      · exact ih h2

theorem sortStoriesDesc_pairwise (l : List Story) :
    tsDescOrdered (sortStoriesDesc l) := by
  induction l with
  | nil => simp [sortStoriesDesc, tsDescOrdered]
  | cons s rest ih =>
    rw [sortStoriesDesc]
    exact insertDesc_pairwise s _ ih

theorem filter_insertDesc (T : Nat) (s : Story) (l : List Story) :
    (insertDesc s l).filter (fun x => x.timestamp == T) =
      if s.timestamp = T then s :: l.filter (fun x => x.timestamp == T)
      else l.filter (fun x => x.timestamp == T) := by
  induction l with
  | nil =>
    by_cases hs : s.timestamp = T
    · simp [insertDesc, List.filter_cons, hs]
    · simp [insertDesc, List.filter_cons, hs]
  | cons t ts ih =>
    by_cases hts : t.timestamp ≤ s.timestamp
    · rw [insertDesc, if_pos hts]
      by_cases hs : s.timestamp = T
      · simp [List.filter_cons, hs]
      · simp [List.filter_cons, hs]
    · rw [insertDesc, if_neg hts]
      by_cases hs : s.timestamp = T
      · have htT : t.timestamp ≠ T := by omega
        rw [if_pos hs]
        simp only [List.filter_cons]
        rw [show (t.timestamp == T) = false by simpa using htT]
        simp only [Bool.false_eq_true, if_false]
        rw [ih, if_pos hs]
      · rw [if_neg hs]
        simp only [List.filter_cons]
        rw [ih, if_neg hs]

theorem filter_sortStoriesDesc (T : Nat) (l : List Story) :
    (sortStoriesDesc l).filter (fun x => x.timestamp == T) =
      l.filter (fun x => x.timestamp == T) := by
  induction l with
  | nil => rfl
  | cons s rest ih =>
    rw [sortStoriesDesc, filter_insertDesc, List.filter_cons]
    by_cases hs : s.timestamp = T
    · rw [if_pos hs, ih, show (s.timestamp == T) = true by simpa using hs]
      simp
    · rw [if_neg hs, ih, show (s.timestamp == T) = false by simpa using hs]
      simp

theorem parseStoryDoc_storyToDoc (env : Env) (ctr : Nat) (s : Story) :
    parseStoryDoc env ctr (storyToDoc s) = some (s, ctr) := by
  simp [parseStoryDoc, storyToDoc, getField, fromisoformat_isoformat]

theorem getDocById_putDoc (st : StoreCol) (id : String) (d : Doc) :
    getDocById (putDoc st id d) id = some d := by
  induction st with
  | nil => simp [putDoc, getDocById]
  | cons kv rest ih =>
    obtain ⟨k, v⟩ := kv
    rw [putDoc]
    split
    · simp [getDocById]
    · rw [getDocById, if_neg (by assumption), ih]

theorem mem_of_getDocById {st : StoreCol} {id : String} {d : Doc}
    (h : getDocById st id = some d) : (id, d) ∈ st := by
  induction st with
  | nil => simp [getDocById] at h
  | cons kv rest ih =>
    obtain ⟨k, v⟩ := kv
    rw [getDocById] at h
    split at h
    · rename_i hk
      subst hk
      simp only [Option.some.injEq] at h
      subst h
      exact List.mem_cons_self _ _
    · exact List.mem_cons_of_mem _ (ih h)

theorem parseStories_mem (env : Env) {docs : List (String × Doc)}
    {k : String} {d : Doc} {s : Story} {c : Nat} {ps : List Story}
    (hd : ∀ c0, parseStoryDoc env c0 d = some (s, c0))
    (hmem : (k, d) ∈ docs) (hps : parseStories env docs c = some ps) :
    s ∈ ps := by
  induction docs generalizing c ps with
  | nil => simp at hmem
  | cons kd rest ih =>
    obtain ⟨k1, d1⟩ := kd
    rw [parseStories] at hps
    split at hps
    · exact absurd hps (by simp)
    · rename_i s1 c1 hp1
      split at hps
      · exact absurd hps (by simp)
      · rename_i l hrest
        simp only [Option.some.injEq] at hps
        subst hps
        rcases List.mem_cons.mp hmem with hh | hh
        · have hdd : d = d1 := by simpa using congrArg Prod.snd hh
          rw [← hdd, hd c] at hp1
          simp only [Option.some.injEq, Prod.mk.injEq] at hp1
          rw [← hp1.1]
          exact List.mem_cons_self _ _
        · exact List.mem_cons_of_mem _ (ih hh hrest)

theorem parseStoryDoc_bad (env : Env) (ctr : Nat) {d : Doc}
    (h : timestampBadDoc d = true) : parseStoryDoc env ctr d = none := by
  rw [timestampBadDoc] at h
  rw [parseStoryDoc]
  split
  · rfl
  · rename_i ts hts
    rw [hts, Option.some_bind, Option.isNone_iff_eq_none] at h
    rw [h]

theorem parseStories_bad (env : Env) {docs : List (String × Doc)}
    {k : String} {d : Doc} (hmem : (k, d) ∈ docs)
    (hbad : timestampBadDoc d = true) (c : Nat) :
    parseStories env docs c = none := by
  induction docs generalizing c with
  | nil => simp at hmem
  | cons kd rest ih =>
    obtain ⟨k1, d1⟩ := kd
    rw [parseStories]
    rcases List.mem_cons.mp hmem with hh | hh
    · have hdd : d = d1 := by simpa using congrArg Prod.snd hh
      rw [← hdd, parseStoryDoc_bad env c hbad]
    · split
      · rfl
      · rename_i s1 c1 hp1
        rw [ih hh c1]

theorem getField_restrictKeys (keys : List String) (d : Doc) (k : String)
    (hk : k ∈ keys) : getField (restrictKeys keys d) k = getField d k := by
  induction d with
  | nil => rfl
  | cons p rest ih =>
    obtain ⟨k1, v1⟩ := p
    rw [restrictKeys] at ih ⊢
    rw [List.filter_cons]
    by_cases hmem : k1 ∈ keys
    · rw [if_pos (by simpa using hmem)]
      by_cases h1 : k1 = k
      · rw [getField, if_pos h1, getField, if_pos h1]
      · rw [getField, if_neg h1, getField, if_neg h1]
        exact ih
    · rw [if_neg (by simpa using hmem)]
      have hne : k1 ≠ k := fun he => hmem (he ▸ hk)
      rw [ih, getField, if_neg hne]

theorem missingFields_restrictKeys (req : List String) (payload : Doc) :
    missingFields req (restrictKeys req payload) = missingFields req payload := by
  rw [missingFields, missingFields]
  apply List.filter_congr
  intro k hk
  rw [getField_restrictKeys req payload k hk]

theorem parseStoryCreate_restrictKeys (payload : Doc) :
    parseStoryCreate (restrictKeys storyRequired payload) =
      parseStoryCreate payload := by
  rw [parseStoryCreate, parseStoryCreate,
    getField_restrictKeys _ _ _ (by simp [storyRequired]),
    getField_restrictKeys _ _ _ (by simp [storyRequired]),
    getField_restrictKeys _ _ _ (by simp [storyRequired]),
    missingFields_restrictKeys]

theorem parseContactCreate_restrictKeys (payload : Doc) :
    parseContactCreate (restrictKeys contactRequired payload) =
      parseContactCreate payload := by
  rw [parseContactCreate, parseContactCreate,
    getField_restrictKeys _ _ _ (by simp [contactRequired]),
    getField_restrictKeys _ _ _ (by simp [contactRequired]),
    getField_restrictKeys _ _ _ (by simp [contactRequired]),
    missingFields_restrictKeys]

theorem create_story_ok_shape {env : Env} {st st2 : StoreCol} {payload : Doc}
    {story : Story} (h : create_story env none st payload = (Resp.ok story, st2)) :
    ∃ input, parseStoryCreate payload = Except.ok input ∧
      story = mkStory env input ∧
      st2 = putDoc st story.id (storyToDoc story) := by
  rw [create_story] at h
  split at h
  · exact absurd h (by simp)
  · rename_i input hin
    simp only [Prod.mk.injEq, Resp.ok.injEq] at h
    obtain ⟨h1, h2⟩ := h
    exact ⟨input, hin, h1.symm, by rw [← h2, h1]⟩

theorem save_contact_ok_shape {env : Env} {st st2 : StoreCol} {payload : Doc}
    {msg : ContactMessage}
    (h : save_contact_message env none st payload = (Resp.ok msg, st2)) :
    ∃ input, parseContactCreate payload = Except.ok input ∧
      msg = mkContactMessage env input ∧
      st2 = putDoc st msg.id (contactToDoc msg) := by
  rw [save_contact_message] at h
  split at h
  · exact absurd h (by simp)
  · rename_i input hin
    simp only [Prod.mk.injEq, Resp.ok.injEq] at h
    obtain ⟨h1, h2⟩ := h
    exact ⟨input, hin, h1.symm, by rw [← h2, h1]⟩

/-- Claim C1: for every state of the "stories" collection, `get_stories`
returns exactly the records parsed from all documents, sorted by timestamp
descending; for three stories with timestamps T1 < T2 < T3 it returns them
in the order [T3, T2, T1]. -/
theorem claim_C1_list_sorted_desc :
    (∀ env st ps, parseStories env st 0 = some ps →
      get_stories env none st = Resp.ok (sortStoriesDesc ps) ∧
      List.Perm (sortStoriesDesc ps) ps ∧ tsDescOrdered (sortStoriesDesc ps)) ∧
    (∀ env k1 k2 k3 s1 s2 s3, s1.timestamp < s2.timestamp →
      s2.timestamp < s3.timestamp →
      get_stories env none
          [(k1, storyToDoc s1), (k2, storyToDoc s2), (k3, storyToDoc s3)] =
        Resp.ok [s3, s2, s1]) := by
  constructor
  · intro env st ps hps
    refine ⟨?_, sortStoriesDesc_perm ps, sortStoriesDesc_pairwise ps⟩
    simp only [get_stories, hps]
  · intro env k1 k2 k3 s1 s2 s3 h12 h23
    have hp : parseStories env
        [(k1, storyToDoc s1), (k2, storyToDoc s2), (k3, storyToDoc s3)] 0 =
        some [s1, s2, s3] := by
      simp [parseStories, parseStoryDoc_storyToDoc]
    have e1 : ¬ (s3.timestamp ≤ s2.timestamp) := by omega
    have e2 : ¬ (s3.timestamp ≤ s1.timestamp) := by omega
    have e3 : ¬ (s2.timestamp ≤ s1.timestamp) := by omega
    simp only [get_stories, hp]
    simp [sortStoriesDesc, insertDesc, e1, e2, e3]

theorem claim_C1_witness :
    get_stories envW none
        [("a1", storyToDoc storyW1), ("a2", storyToDoc storyW2),
          ("a3", storyToDoc storyW3)] =
      Resp.ok [storyW3, storyW2, storyW1] :=
  claim_C1_list_sorted_desc.2 envW "a1" "a2" "a3" storyW1 storyW2 storyW3
    (by decide) (by decide)

/-- Claim C8: the sort of `get_stories` is stable — records with equal
timestamps keep the relative order of the scanned sequence, formalised by
filtering both lists to any fixed timestamp T. -/
theorem claim_C8_stable_sort :
    ∀ env st ps l T, parseStories env st 0 = some ps →
      get_stories env none st = Resp.ok l →
      l.filter (fun s => s.timestamp == T) =
        ps.filter (fun s => s.timestamp == T) := by
  intro env st ps l T hps hl
  simp only [get_stories, hps, Resp.ok.injEq] at hl
  rw [← hl]
  exact filter_sortStoriesDesc T ps

theorem claim_C8_witness :
    ([storyW1, storyW2].filter (fun s => s.timestamp == 1)) =
      ([storyW1, storyW2].filter (fun s => s.timestamp == 1)) :=
  claim_C8_stable_sort envW
    [("a1", storyToDoc storyW1), ("a2", storyToDoc storyW2)]
    [storyW1, storyW2] [storyW2, storyW1] 1 (by decide) (by decide)

/-- Claim C9: if any single stored document has a missing or unparseable
timestamp, `get_stories` returns no records at all — the whole operation
fails with 500 "Failed to fetch stories", however well-formed the rest. -/
theorem claim_C9_bad_timestamp_fails_all :
    ∀ env st k d, (k, d) ∈ st → timestampBadDoc d = true →
      get_stories env none st = Resp.httpError 500 "Failed to fetch stories" := by
  intro env st k d hmem hbad
  have hp := parseStories_bad env hmem hbad 0
  simp only [get_stories, hp]

theorem claim_C9_witness :
    get_stories envW none [("g", storyToDoc storyW1), ("k", docBadTs)] =
      Resp.httpError 500 "Failed to fetch stories" :=
  claim_C9_bad_timestamp_fails_all envW
    [("g", storyToDoc storyW1), ("k", docBadTs)] "k" docBadTs
    (by decide) (by decide)

/-- Claim C2: any fault of the store adapter inside a handler is masked as a
fixed 500 response — "Failed to add story" for `create_story` (with the
collection unchanged), "Failed to fetch stories" for `get_stories` (whether
the scan or the parsing of a scanned document fails), "Failed to send
message" for `save_contact_message` (collection unchanged). -/
theorem claim_C2_failure_masking :
    (∀ env st payload input f, parseStoryCreate payload = Except.ok input →
      create_story env (some f) st payload =
        (Resp.httpError 500 "Failed to add story", st)) ∧
    (∀ env st f, get_stories env (some f) st =
      Resp.httpError 500 "Failed to fetch stories") ∧
    (∀ env st, parseStories env st 0 = none →
      get_stories env none st = Resp.httpError 500 "Failed to fetch stories") ∧
    (∀ env st payload input f, parseContactCreate payload = Except.ok input →
      save_contact_message env (some f) st payload =
        (Resp.httpError 500 "Failed to send message", st)) := by
  refine ⟨?_, ?_, ?_, ?_⟩
  · intro env st payload input f hin
    simp only [create_story, hin]
  · intro env st f
    rfl
  · intro env st hnone
    simp only [get_stories, hnone]
  · intro env st payload input f hin
    simp only [save_contact_message, hin]

theorem claim_C2_witness :
    create_story envW (some "boom") [] payloadOkW =
      (Resp.httpError 500 "Failed to add story", []) :=
  claim_C2_failure_masking.1 envW [] payloadOkW ⟨"a", "t", "s"⟩ "boom" (by rfl)

theorem parseStoryCreate_missing (payload : Doc) (k : String)
    (hk : k ∈ storyRequired) (hnone : getField payload k = none) :
    parseStoryCreate payload =
      Except.error (missingFields storyRequired payload) := by
  simp only [storyRequired, List.mem_cons, List.not_mem_nil, or_false] at hk
  rw [parseStoryCreate]
  rcases h1 : getField payload "author" with _ | a <;>
    rcases h2 : getField payload "title" with _ | t <;>
      rcases h3 : getField payload "story" with _ | s <;>
        first
          | rfl
          | (rcases hk with rfl | rfl | rfl <;> simp_all)

theorem parseContactCreate_missing (payload : Doc) (k : String)
    (hk : k ∈ contactRequired) (hnone : getField payload k = none) :
    parseContactCreate payload =
      Except.error (missingFields contactRequired payload) := by
  simp only [contactRequired, List.mem_cons, List.not_mem_nil, or_false] at hk
  rw [parseContactCreate]
  rcases h1 : getField payload "name" with _ | a <;>
    rcases h2 : getField payload "email" with _ | t <;>
      rcases h3 : getField payload "message" with _ | s <;>
        first
          | rfl
          | (rcases hk with rfl | rfl | rfl <;> simp_all)

/-- Claim C7: every creation request (story or contact) missing any of its
required fields is rejected by the validation layer with field-level detail
(the missing field is named in the detail list), before any store call (the
state is unchanged even under an injected write fault), and the rejection
is distinct from the generic 500 error. -/
theorem claim_C7_missing_field_rejected :
    (∀ env f st payload k, k ∈ storyRequired → getField payload k = none →
      create_story env f st payload =
        (Resp.validationError (missingFields storyRequired payload), st) ∧
      k ∈ missingFields storyRequired payload ∧
      (∀ c dmsg,
        (Resp.validationError (missingFields storyRequired payload) :
            Resp Story) ≠
          Resp.httpError c dmsg)) ∧
    (∀ env f st payload k, k ∈ contactRequired → getField payload k = none →
      save_contact_message env f st payload =
        (Resp.validationError (missingFields contactRequired payload), st) ∧
      k ∈ missingFields contactRequired payload ∧
      (∀ c dmsg,
        (Resp.validationError (missingFields contactRequired payload) :
            Resp ContactMessage) ≠
          Resp.httpError c dmsg)) := by
  constructor
  · intro env f st payload k hk hnone
    refine ⟨?_, ?_, ?_⟩
    · rw [create_story, parseStoryCreate_missing payload k hk hnone]
    · rw [missingFields, List.mem_filter]
      exact ⟨hk, by simp [hnone]⟩
    · intro c dmsg
      simp
  · intro env f st payload k hk hnone
    refine ⟨?_, ?_, ?_⟩
    · rw [save_contact_message, parseContactCreate_missing payload k hk hnone]
    · rw [missingFields, List.mem_filter]
      exact ⟨hk, by simp [hnone]⟩
    · intro c dmsg
      simp

theorem claim_C7_witness :
    create_story envW (some "boom") [] [("title", "t"), ("story", "s")] =
        (Resp.validationError
          (missingFields storyRequired [("title", "t"), ("story", "s")]), []) ∧
      save_contact_message envW (some "boom") [] [("name", "n")] =
        (Resp.validationError
          (missingFields contactRequired [("name", "n")]), []) :=
  ⟨(claim_C7_missing_field_rejected.1 envW (some "boom") []
      [("title", "t"), ("story", "s")] "author" (by decide) (by decide)).1,
    (claim_C7_missing_field_rejected.2 envW (some "boom") []
      [("name", "n")] "email" (by decide) (by decide)).1⟩

/-- Claim C3 fails on the code: a caller-supplied `year` in the creation
payload is dropped by the `StoryCreate` input model, so the constructed
record's year is the server default ("2025" under `envW`), not the supplied
"1999". -/
theorem claim_C3_counterexample :
    (create_story envW none [] payloadC3).1 = Resp.ok storyC3 ∧
      storyC3.year = "2025" ∧ storyC3.year ≠ "1999" := by
  refine ⟨by decide, rfl, by decide⟩

/-- Claim C3 amended: the constructed record's `year` never comes from the
payload — `StoryCreate` carries no year field, so `create_story` always
defaults it to the current local calendar year as a string. -/
theorem claim_C3_amended_year_always_default :
    ∀ env f st payload story,
      (create_story env f st payload).1 = Resp.ok story →
      story.year = natToString env.localYear := by
  intro env f st payload story h
  rcases hc : create_story env f st payload with ⟨r, st2⟩
  rw [hc] at h
  simp only at h
  subst h
  cases f with
  | some msg =>
    rw [create_story] at hc
    split at hc
    · simp at hc
    · simp at hc
  | none =>
    obtain ⟨input, hin, hstory, h2⟩ := create_story_ok_shape hc
    rw [hstory]
    rfl

theorem claim_C3_witness :
    storyC3.year = natToString envW.localYear :=
  claim_C3_amended_year_always_default envW none [] payloadC3 storyC3 (by decide)

/-- Claim C4: unknown or extra payload fields — including caller-supplied
`id` or `timestamp` — never appear in the stored document or the returned
record and never cause rejection: each creation endpoint depends only on
the restriction of the payload to its required fields, the stored document
carries exactly the model's fixed field names, `id`/`timestamp` are the
server-generated values, and a payload with all required fields is never
rejected with a validation error. -/
theorem claim_C4_extra_fields_ignored :
    (∀ env f st payload,
      create_story env f st (restrictKeys storyRequired payload) =
        create_story env f st payload) ∧
    (∀ s : Story, (storyToDoc s).map Prod.fst =
      ["id", "author", "title", "story", "year", "timestamp"]) ∧
    (∀ env st payload story st2,
      create_story env none st payload = (Resp.ok story, st2) →
      story.id = uuidString (env.rand 0) ∧ story.timestamp = env.nowUtc) ∧
    (∀ env f st payload input, parseStoryCreate payload = Except.ok input →
      ∀ m, (create_story env f st payload).1 ≠ Resp.validationError m) ∧
    (∀ env f st payload,
      save_contact_message env f st (restrictKeys contactRequired payload) =
        save_contact_message env f st payload) ∧
    (∀ m : ContactMessage, (contactToDoc m).map Prod.fst =
      ["id", "name", "email", "message", "timestamp"]) ∧
    (∀ env f st payload input, parseContactCreate payload = Except.ok input →
      ∀ m, (save_contact_message env f st payload).1 ≠ Resp.validationError m) := by
  refine ⟨?_, ?_, ?_, ?_, ?_, ?_, ?_⟩
  · intro env f st payload
    rw [create_story, create_story, parseStoryCreate_restrictKeys]
  · intro s; rfl
  · intro env st payload story st2 h
    obtain ⟨input, hin, hstory, h2⟩ := create_story_ok_shape h
    rw [hstory]
    exact ⟨rfl, rfl⟩
  · intro env f st payload input hin m
    cases f <;> simp [create_story, hin]
  · intro env f st payload
    rw [save_contact_message, save_contact_message, parseContactCreate_restrictKeys]
  · intro m; rfl
  · intro env f st payload input hin m
    cases f <;> simp [save_contact_message, hin]

theorem claim_C4_witness :
    create_story envW none [] (restrictKeys storyRequired payloadC3) =
        create_story envW none [] payloadC3 ∧
      (create_story envW (some "boom") [] payloadOkW).1 ≠
        Resp.validationError [] :=
  ⟨claim_C4_extra_fields_ignored.1 envW none [] payloadC3,
    claim_C4_extra_fields_ignored.2.2.2.1 envW (some "boom") [] payloadOkW
      ⟨"a", "t", "s"⟩ (by rfl) []⟩

/-- Claim C5: every successful creation returns a record whose `id` is a
syntactically valid server-generated UUID (the first uuid4 draw), and the
document is stored in the corresponding collection under that very id. -/
theorem claim_C5_uuid_and_storage_key :
    (∀ r, isValidUUID (uuidString r) = true) ∧
    (∀ env st payload story st2,
      create_story env none st payload = (Resp.ok story, st2) →
      isValidUUID story.id = true ∧ story.id = uuidString (env.rand 0) ∧
        getDocById st2 story.id = some (storyToDoc story)) ∧
    (∀ env st payload msg st2,
      save_contact_message env none st payload = (Resp.ok msg, st2) →
      isValidUUID msg.id = true ∧ msg.id = uuidString (env.rand 0) ∧
        getDocById st2 msg.id = some (contactToDoc msg)) := by
  refine ⟨isValidUUID_uuidString, ?_, ?_⟩
  · intro env st payload story st2 h
    obtain ⟨input, hin, hstory, hst2⟩ := create_story_ok_shape h
    have hid : story.id = uuidString (env.rand 0) := by rw [hstory]; rfl
    exact ⟨by rw [hid]; exact isValidUUID_uuidString _, hid,
      by rw [hst2]; exact getDocById_putDoc st story.id (storyToDoc story)⟩
  · intro env st payload msg st2 h
    obtain ⟨input, hin, hmsg, hst2⟩ := save_contact_ok_shape h
    have hid : msg.id = uuidString (env.rand 0) := by rw [hmsg]; rfl
    exact ⟨by rw [hid]; exact isValidUUID_uuidString _, hid,
      by rw [hst2]; exact getDocById_putDoc st msg.id (contactToDoc msg)⟩

theorem claim_C5_witness :
    isValidUUID storyC3.id = true ∧
      storyC3.id = uuidString (envW.rand 0) ∧
      getDocById [("00000000-0000-4000-8000-000000000000", storyToDoc storyC3)]
          storyC3.id = some (storyToDoc storyC3) :=
  claim_C5_uuid_and_storage_key.2.1 envW [] payloadOkW storyC3
    [("00000000-0000-4000-8000-000000000000", storyToDoc storyC3)] (by decide)

/-- Claim C6: a story written by `create_story` reads back field-for-field
equal: its stored document parses back to exactly the returned record
(timestamp included, through the ISO-8601 round trip), and any successful
`get_stories` on the resulting state contains the record. -/
theorem claim_C6_roundtrip :
    ∀ env st payload story st2,
      create_story env none st payload = (Resp.ok story, st2) →
      (∀ env2 ctr, parseStoryDoc env2 ctr (storyToDoc story) = some (story, ctr)) ∧
      (∀ env2 l, get_stories env2 none st2 = Resp.ok l → story ∈ l) := by
  intro env st payload story st2 h
  obtain ⟨input, hin, hstory, hst2⟩ := create_story_ok_shape h
  constructor
  · intro env2 ctr
    exact parseStoryDoc_storyToDoc env2 ctr story
  · intro env2 l hl
    simp only [get_stories] at hl
    split at hl
    · exact absurd hl (by simp)
    · rename_i ps hps
      simp only [Resp.ok.injEq] at hl
      have hmem : (story.id, storyToDoc story) ∈ st2 := by
        rw [hst2]
        exact mem_of_getDocById (getDocById_putDoc st story.id (storyToDoc story))
      have hsps : story ∈ ps :=
        parseStories_mem env2 (fun c0 => parseStoryDoc_storyToDoc env2 c0 story)
          hmem hps
      rw [← hl]
      exact ((sortStoriesDesc_perm ps).mem_iff).mpr hsps

theorem claim_C6_witness :
    parseStoryDoc envW 0 (storyToDoc storyC3) = some (storyC3, 0) :=
  (claim_C6_roundtrip envW [] payloadOkW storyC3
    [("00000000-0000-4000-8000-000000000000", storyToDoc storyC3)]
    (by decide)).1 envW 0

theorem parseStoryDoc_noId (env : Env) (ctr : Nat) (d : Doc) (ts : String)
    (t : Nat) (a ti s : String)
    (hts : getField d "timestamp" = some ts) (hparse : fromisoformat ts = some t)
    (ha : getField d "author" = some a) (hti : getField d "title" = some ti)
    (hs : getField d "story" = some s) (hid : getField d "id" = none) :
    parseStoryDoc env ctr d =
      some ({ id := uuidString (env.rand ctr), author := a, title := ti,
              story := s,
              year := (getField d "year").getD (natToString env.localYear),
              timestamp := t }, ctr + 1) := by
  simp only [parseStoryDoc, hts, hparse, ha, hti, hs, hid]

theorem parseStoryDoc_someId_noYear (env : Env) (ctr : Nat) (d : Doc)
    (ts : String) (t : Nat) (a ti s i : String)
    (hts : getField d "timestamp" = some ts) (hparse : fromisoformat ts = some t)
    (ha : getField d "author" = some a) (hti : getField d "title" = some ti)
    (hs : getField d "story" = some s) (hid : getField d "id" = some i)
    (hyear : getField d "year" = none) :
    parseStoryDoc env ctr d =
      some ({ id := i, author := a, title := ti, story := s,
              year := natToString env.localYear, timestamp := t }, ctr) := by
  simp only [parseStoryDoc, hts, hparse, ha, hti, hs, hid, hyear, Option.getD_none]

theorem get_stories_single (env : Env) (k : String) (d : Doc) (s : Story)
    (c2 : Nat) (h : parseStoryDoc env 0 d = some (s, c2)) :
    get_stories env none [(k, d)] = Resp.ok [s] := by
  have hps : parseStories env [(k, d)] 0 = some [s] := by
    simp only [parseStories, h]
  simp only [get_stories, hps]
  simp [sortStoriesDesc, insertDesc]

/-- Claim C10: a stored story document with a valid timestamp but lacking
the `id` or the `year` field still parses — a missing id is filled with a
fresh uuid4 draw and a missing year with the current local calendar year
(a present field is kept) — so `get_stories` succeeds, and the id returned
for an id-less document can differ between two reads of the same state. -/
theorem claim_C10_read_defaults :
    (∀ env ctr d ts t a ti s, getField d "timestamp" = some ts →
      fromisoformat ts = some t → getField d "author" = some a →
      getField d "title" = some ti → getField d "story" = some s →
      getField d "id" = none →
      parseStoryDoc env ctr d =
        some ({ id := uuidString (env.rand ctr), author := a, title := ti,
                story := s,
                year := (getField d "year").getD (natToString env.localYear),
                timestamp := t }, ctr + 1)) ∧
    (∀ env ctr d ts t a ti s i, getField d "timestamp" = some ts →
      fromisoformat ts = some t → getField d "author" = some a →
      getField d "title" = some ti → getField d "story" = some s →
      getField d "id" = some i → getField d "year" = none →
      parseStoryDoc env ctr d =
        some ({ id := i, author := a, title := ti, story := s,
                year := natToString env.localYear, timestamp := t }, ctr)) ∧
    (∀ env k d ts t a ti s, getField d "timestamp" = some ts →
      fromisoformat ts = some t → getField d "author" = some a →
      getField d "title" = some ti → getField d "story" = some s →
      getField d "id" = none →
      get_stories env none [(k, d)] =
        Resp.ok [{ id := uuidString (env.rand 0), author := a, title := ti,
                   story := s,
                   year := (getField d "year").getD (natToString env.localYear),
                   timestamp := t }]) ∧
    (∀ env k d ts t a ti s i, getField d "timestamp" = some ts →
      fromisoformat ts = some t → getField d "author" = some a →
      getField d "title" = some ti → getField d "story" = some s →
      getField d "id" = some i → getField d "year" = none →
      get_stories env none [(k, d)] =
        Resp.ok [{ id := i, author := a, title := ti, story := s,
                   year := natToString env.localYear, timestamp := t }]) ∧
    (∃ s0 s1 : Story,
      get_stories envR0 none [("k", docNoId)] = Resp.ok [s0] ∧
      get_stories envR1 none [("k", docNoId)] = Resp.ok [s1] ∧ s0.id ≠ s1.id) := by
  refine ⟨?_, ?_, ?_, ?_, ?_⟩
  · intro env ctr d ts t a ti s h1 h2 h3 h4 h5 h6
    exact parseStoryDoc_noId env ctr d ts t a ti s h1 h2 h3 h4 h5 h6
  · intro env ctr d ts t a ti s i h1 h2 h3 h4 h5 h6 h7
    exact parseStoryDoc_someId_noYear env ctr d ts t a ti s i h1 h2 h3 h4 h5 h6 h7
  · intro env k d ts t a ti s h1 h2 h3 h4 h5 h6
    exact get_stories_single env k d _ _
      (parseStoryDoc_noId env 0 d ts t a ti s h1 h2 h3 h4 h5 h6)
  · intro env k d ts t a ti s i h1 h2 h3 h4 h5 h6 h7
    exact get_stories_single env k d _ _
      (parseStoryDoc_someId_noYear env 0 d ts t a ti s i h1 h2 h3 h4 h5 h6 h7)
  · exact ⟨sC10a, sC10b, by decide, by decide, by decide⟩

theorem claim_C10_witness :
    get_stories envR0 none [("k", docNoId)] =
        Resp.ok [{ id := uuidString (envR0.rand 0), author := "a", title := "t",
                   story := "s",
                   year := (getField docNoId "year").getD
                     (natToString envR0.localYear),
                   timestamp := 7 }] ∧
      get_stories envR0 none [("k2", docIdNoYear)] =
        Resp.ok [{ id := "zz", author := "a", title := "t", story := "s",
                   year := natToString envR0.localYear, timestamp := 7 }] :=
  ⟨claim_C10_read_defaults.2.2.1 envR0 "k" docNoId (isoformat 7) 7 "a" "t" "s"
      (by decide) (by decide) (by decide) (by decide) (by decide) (by decide),
    claim_C10_read_defaults.2.2.2.1 envR0 "k2" docIdNoYear (isoformat 7) 7
      "a" "t" "s" "zz" (by decide) (by decide) (by decide) (by decide)
      (by decide) (by decide) (by decide)⟩
